import Mathlib

/-!
Verification of the minimal Wavefront-OBJ loader of this repository
(`loadOBJ_to_interleaved` and its helpers in the final project file).

Modelling decisions, stated once here:

* C++ `float` arithmetic is modelled over the real numbers `ℝ`; the
  structural claims being checked (which records are emitted, which table
  entry or synthesized value each slot carries) do not depend on rounding.
* The text stream is modelled line by line.  `v`, `vt` and `vn` lines carry
  their already-parsed float payloads (the C++ reads them with
  `iss >> x >> y >> z`); `f` lines carry their raw whitespace-separated
  tokens, whose slash/number structure the source parses itself and which we
  therefore embed faithfully.  Blank lines, `'#'` comment lines and lines
  with any unrecognized tag are all ignored by the source in exactly the
  same way (either the early `continue` or falling through every tag test),
  so they share one constructor.
* An out-of-range `std::vector` subscript is undefined behaviour in the
  C++; the model reads a default zero value there.  No claim about a value
  actually read out of range is settled from that default.
* The two `std::cerr` diagnostics of `loadOBJ_to_interleaved` are modelled
  as the `log` field of the result, so that which failure fired (and the
  absence of any other diagnostic) is observable.
-/

/-- 3-component float vector (`glm::vec3`), components modelled as reals. -/
structure Vec3 where
  x : ℝ
  y : ℝ
  z : ℝ

/-- 2-component float vector (`glm::vec2`). -/
structure Vec2 where
  x : ℝ
  y : ℝ

/-- Componentwise subtraction, `glm` operator `-`. -/
def vsub (a b : Vec3) : Vec3 :=
  ⟨a.x - b.x, a.y - b.y, a.z - b.z⟩

/-- `glm::cross`. -/
def cross (a b : Vec3) : Vec3 :=
  ⟨a.y * b.z - a.z * b.y, a.z * b.x - a.x * b.z, a.x * b.y - a.y * b.x⟩

/-- `glm::dot`. -/
def dot (a b : Vec3) : ℝ :=
  a.x * b.x + a.y * b.y + a.z * b.z

/-- `glm::normalize`: divide by the Euclidean length.  (Named with the glm
qualifier because Mathlib already has a `normalize`.) -/
noncomputable def glmNormalize (v : Vec3) : Vec3 :=
  ⟨v.x / Real.sqrt (dot v v), v.y / Real.sqrt (dot v v), v.z / Real.sqrt (dot v v)⟩

/-- The per-triangle normal the loader synthesizes:
`glm::normalize(glm::cross(pb - pa, pc - pa))` (main.cpp line 231). -/
noncomputable def synthNormal (pa pb pc : Vec3) : Vec3 :=
  glmNormalize (cross (vsub pb pa) (vsub pc pa))

/-- `struct Idx { int v=-1, vt=-1, vn=-1; }` (main.cpp line 161): one parsed
face corner, all three indices already resolved to 0-based positions, `-1`
the no-value sentinel. -/
structure Idx where
  v : Int := -1
  vt : Int := -1
  vn : Int := -1
deriving DecidableEq

/-- `fixIndex` (main.cpp lines 143-148): resolve a 1-based, optionally
negative OBJ index against a table of length `n`. -/
def fixIndex (idx n : Int) : Int :=
  if 0 < idx then idx - 1
  else if idx < 0 then n + idx
  else -1

/-- Digit-run accumulator of `std::stoi`: consume decimal digits from the
front, stop at the first non-digit. -/
def stoiDigits : List Char → Nat → Nat
  | c :: rest, acc =>
      if c.isDigit then stoiDigits rest (acc * 10 + (c.toNat - '0'.toNat)) else acc
  | [], acc => acc

/-- `std::stoi` as used on the slash-separated fields of a face token:
optional sign, then a digit run.  (On a field with no digits `std::stoi`
throws and the C++ program dies with an uncaught exception; no claim
exercises that case, and the model returns 0 there.) -/
def stoi (cs : List Char) : Int :=
  match cs with
  | '-' :: rest => -(stoiDigits rest 0 : Int)
  | '+' :: rest => (stoiDigits rest 0 : Int)
  | _ => (stoiDigits cs 0 : Int)

/-- `token.find('/', ...)`: index of the first `'/'`, if any. -/
def findSlash : List Char → Option Nat
  | [] => none
  | c :: rest =>
      if c = '/' then some 0
      else match findSlash rest with
           | some k => some (k + 1)
           | none => none

/-- The `a`/`b`/`c` field split of `parseVertexRef` (main.cpp lines 166-179):
split a face token on its first two slashes. -/
def splitRef (tok : List Char) : List Char × List Char × List Char :=
  match findSlash tok with
  | none => (tok, [], [])
  | some p1 =>
      let a := tok.take p1
      let rest := tok.drop (p1 + 1)
      match findSlash rest with
      | none => (a, rest, [])
      | some p2 => (a, rest.take p2, rest.drop (p2 + 1))

/-- `parseVertexRef` (main.cpp lines 163-189) given the current table
lengths.  Note the source applies `fixIndex` to the position field
unconditionally (an absent `v` field keeps the initial `-1` and is then
resolved relative to the end of the table), while the `vt`/`vn` fields get
`fixIndex` only when present. -/
def parseVertexRef (nV nVT nVN : Int) (token : String) : Idx :=
  let (a, b, c) := splitRef token.data
  let v0 : Int := if a.isEmpty then -1 else stoi a
  { v := fixIndex v0 nV
    vt := if b.isEmpty then -1 else fixIndex (stoi b) nVT
    vn := if c.isEmpty then -1 else fixIndex (stoi c) nVN }

/-- `V[i]` on a `std::vector<glm::vec3>` with an `int` subscript.  A
negative or out-of-range subscript is undefined behaviour in the C++;
modelled as the zero vector. -/
def vecAt (l : List Vec3) (i : Int) : Vec3 :=
  if 0 ≤ i then l.getD i.toNat ⟨0, 0, 0⟩ else ⟨0, 0, 0⟩

/-- `VT[i]` on a `std::vector<glm::vec2>`, same convention as `vecAt`. -/
def uvAt (l : List Vec2) (i : Int) : Vec2 :=
  if 0 ≤ i then l.getD i.toNat ⟨0, 0⟩ else ⟨0, 0⟩

/-- `pushVert` (main.cpp lines 241-245): append one interleaved 8-float
record `pos(3), normal(3), uv(2)`. -/
def pushVert (p n : Vec3) (uv : Vec2) : List ℝ :=
  [p.x, p.y, p.z, n.x, n.y, n.z, uv.x, uv.y]

/-- `bool hasNormals` (main.cpp line 227): this sub-triangle's three corners
all carry a resolved normal index and the normal table is nonempty. -/
def hasNormalsB (VN : List Vec3) (a b c : Idx) : Bool :=
  (decide (0 ≤ a.vn) && decide (0 ≤ b.vn) && decide (0 ≤ c.vn)) && !VN.isEmpty

/-- `bool hasUV` (main.cpp line 236): this sub-triangle's three corners all
carry a resolved texcoord index and the texcoord table is nonempty. -/
def hasUVB (VT : List Vec2) (a b c : Idx) : Bool :=
  (decide (0 ≤ a.vt) && decide (0 ≤ b.vt) && decide (0 ≤ c.vt)) && !VT.isEmpty

/-- The body of the fan loop (main.cpp lines 219-249) for one sub-triangle
with corners `a`, `b`, `c`: resolve positions, decide normals and texture
coordinates for this sub-triangle, emit three records.  The source assigns
the three normals (resp. uv pairs) inside a single branch on the decision,
written here as three `if`s on the same Boolean. -/
noncomputable def emitTri (V : List Vec3) (VT : List Vec2) (VN : List Vec3) (a b c : Idx) : List ℝ :=
  let pa := vecAt V a.v
  let pb := vecAt V b.v
  let pc := vecAt V c.v
  let na := if hasNormalsB VN a b c then vecAt VN a.vn else synthNormal pa pb pc
  let nb := if hasNormalsB VN a b c then vecAt VN b.vn else synthNormal pa pb pc
  let nc := if hasNormalsB VN a b c then vecAt VN c.vn else synthNormal pa pb pc
  let uva := if hasUVB VT a b c then uvAt VT a.vt else ⟨0, 0⟩
  let uvb := if hasUVB VT a b c then uvAt VT b.vt else ⟨0, 0⟩
  let uvc := if hasUVB VT a b c then uvAt VT c.vt else ⟨0, 0⟩
  pushVert pa na uva ++ pushVert pb nb uvb ++ pushVert pc nc uvc

/-- The fan-triangulation loop (main.cpp line 218):
`for (size_t i = 1; i + 1 < face.size(); ++i)` emitting the sub-triangle
`(face[0], face[i], face[i+1])` at each step.  Written structurally: with
the anchor `a0 = face[0]` fixed, the loop walks the remaining corners and
emits one sub-triangle per adjacent pair. -/
noncomputable def fanLoop (V : List Vec3) (VT : List Vec2) (VN : List Vec3)
    (a0 : Idx) : List Idx → List ℝ
  | b :: c :: rest => emitTri V VT VN a0 b c ++ fanLoop V VT VN a0 (c :: rest)
  | _ => []

/-- All records the fan loop emits for one parsed face. -/
noncomputable def fanRecords (V : List Vec3) (VT : List Vec2) (VN : List Vec3) :
    List Idx → List ℝ
  | a0 :: tail => fanLoop V VT VN a0 tail
  | [] => []

/-- One line of the OBJ stream.  `v`/`vt`/`vn` lines carry their parsed
float payloads; an `f` line carries its raw whitespace-separated tokens.
`skip` covers every line the loader ignores: blank lines and `'#'` comments
(the early `continue`, main.cpp line 193) as well as lines whose tag matches
none of `v`, `vt`, `vn`, `f` (fall-through of the tag dispatch). -/
inductive Line where
  | v (p : Vec3)
  | vt (t : Vec2)
  | vn (n : Vec3)
  | f (toks : List String)
  | skip

/-- The loader's running state: the three attribute tables `V`, `VT`, `VN`
and the caller-supplied output vector `out` being appended to. -/
structure PState where
  V : List Vec3
  VT : List Vec2
  VN : List Vec3
  out : List ℝ

/-- Processing of one line of the stream (main.cpp lines 192-252).
A `vn` payload is normalized as it is read (line 210).  An `f` line parses
each token against the current table lengths, skips the face when fewer
than 3 corners were parsed (line 215), and otherwise appends the fan
records. -/
noncomputable def stepLine (st : PState) (l : Line) : PState :=
  match l with
  | .v p => { st with V := st.V ++ [p] }
  | .vt t => { st with VT := st.VT ++ [t] }
  | .vn n => { st with VN := st.VN ++ [glmNormalize n] }
  | .f toks =>
      let face := toks.map
        (parseVertexRef (st.V.length : Int) (st.VT.length : Int) (st.VN.length : Int))
      if face.length < 3 then st
      else { st with out := st.out ++ fanRecords st.V st.VT st.VN face }
  | .skip => st

/-- The `while (std::getline(f, line))` loop: fold `stepLine` over the
stream. -/
noncomputable def processLines (st : PState) : List Line → PState
  | [] => st
  | l :: rest => processLines (stepLine st l) rest

/-- Observable outcome of one `loadOBJ_to_interleaved` call: the `bool`
return value, the final contents of the by-reference output vector, and the
`std::cerr` diagnostics the call printed. -/
structure LoadResult where
  ok : Bool
  out : List ℝ
  log : List String

/-- The diagnostic of the cannot-open failure (main.cpp line 153). -/
def msgCannotOpen (path : String) : String :=
  "Cannot open OBJ: " ++ path

/-- The diagnostic of the empty-output failure (main.cpp line 255). -/
def msgNoVertices (path : String) : String :=
  "OBJ produced no vertices: " ++ path

/-- `loadOBJ_to_interleaved` (main.cpp lines 150-259).  `src = none` models
a path the `std::ifstream` could not open; `src = some lines` an opened
stream with the given lines.  `out0` is the caller-supplied output vector,
which the function never clears.  After the stream is consumed the function
fails iff the (whole) output vector is empty. -/
noncomputable def loadOBJ_to_interleaved (path : String) (src : Option (List Line))
    (out0 : List ℝ) : LoadResult :=
  match src with
  | none => { ok := false, out := out0, log := [msgCannotOpen path] }
  | some lines =>
      let st := processLines ⟨[], [], [], out0⟩ lines
      if st.out.isEmpty then { ok := false, out := st.out, log := [msgNoVertices path] }
      else { ok := true, out := st.out, log := [] }

/-- The records a stream contributes on its own: the output of a load into
a fresh (empty) vector. -/
noncomputable def recordsOf (lines : List Line) : List ℝ :=
  (processLines ⟨[], [], [], []⟩ lines).out

/-- Observer: the normal slots (offsets 3,4,5 within the 8-float record) of
record `j` of an emitted float sequence. -/
def recNormal (r : List ℝ) (j : Nat) : Vec3 :=
  ⟨r.getD (8 * j + 3) 0, r.getD (8 * j + 4) 0, r.getD (8 * j + 5) 0⟩

/-- Observer: the texture-coordinate slots (offsets 6,7) of record `j`. -/
def recUV (r : List ℝ) (j : Nat) : Vec2 :=
  ⟨r.getD (8 * j + 6) 0, r.getD (8 * j + 7) 0⟩

/-- Does every corner of a parsed face carry a (resolved) texcoord index? -/
def faceAllVT (face : List Idx) : Bool :=
  face.all (fun r => decide (0 ≤ r.vt))

/-- Does every corner of a parsed face carry a (resolved) normal index? -/
def faceAllVN (face : List Idx) : Bool :=
  face.all (fun r => decide (0 ≤ r.vn))

/-- Sub-triangle emission with the normals/texcoord decisions supplied from
outside.  Used only to phrase the per-face decision variant the claim text
describes, for comparison against `emitTri`. -/
noncomputable def emitTriWith (V : List Vec3) (VT : List Vec2) (VN : List Vec3)
    (hasNormals hasUV : Bool) (a b c : Idx) : List ℝ :=
  let pa := vecAt V a.v
  let pb := vecAt V b.v
  let pc := vecAt V c.v
  let na := if hasNormals then vecAt VN a.vn else synthNormal pa pb pc
  let nb := if hasNormals then vecAt VN b.vn else synthNormal pa pb pc
  let nc := if hasNormals then vecAt VN c.vn else synthNormal pa pb pc
  let uva := if hasUV then uvAt VT a.vt else ⟨0, 0⟩
  let uvb := if hasUV then uvAt VT b.vt else ⟨0, 0⟩
  let uvc := if hasUV then uvAt VT c.vt else ⟨0, 0⟩
  pushVert pa na uva ++ pushVert pb nb uvb ++ pushVert pc nc uvc

/-- Modelled from the spec: fan loop with the attribute decisions fixed
from outside, used by `fanRecordsPerFace`. -/
noncomputable def fanLoopWith (V : List Vec3) (VT : List Vec2) (VN : List Vec3)
    (hn hu : Bool) (a0 : Idx) : List Idx → List ℝ
  | b :: c :: rest => emitTriWith V VT VN hn hu a0 b c ++ fanLoopWith V VT VN hn hu a0 (c :: rest)
  | _ => []

/-- Modelled from the spec: the per-face all-or-nothing attribute decision
the claim describes — whether to use supplied normals (and, independently,
texture coordinates) is decided once from all of the face's corners and then
applied uniformly to every sub-triangle of the fan.  This is the claim's
reading, to be compared with the source's `fanRecords`. -/
noncomputable def fanRecordsPerFace (V : List Vec3) (VT : List Vec2) (VN : List Vec3)
    (face : List Idx) : List ℝ :=
  match face with
  | a0 :: tail => fanLoopWith V VT VN (faceAllVN face) (faceAllVT face) a0 tail
  | [] => []

/-- A stream is well formed when no face makes the loader read any of the
three tables out of range: every parsed corner's position index is in range
for the position table at that point, and its texcoord/normal indices are
below their tables' lengths (a negative resolved index is the no-value
sentinel and is never used for a table read).  This is the boundary inside
which the C++ is free of undefined behaviour. -/
def wellFormedFrom (nV nVT nVN : Nat) : List Line → Bool
  | [] => true
  | .v _ :: rest => wellFormedFrom (nV + 1) nVT nVN rest
  | .vt _ :: rest => wellFormedFrom nV (nVT + 1) nVN rest
  | .vn _ :: rest => wellFormedFrom nV nVT (nVN + 1) rest
  | .skip :: rest => wellFormedFrom nV nVT nVN rest
  | .f toks :: rest =>
      let face := toks.map (parseVertexRef (nV : Int) (nVT : Int) (nVN : Int))
      (decide (face.length < 3) ||
        face.all fun r =>
          decide (0 ≤ r.v) && decide (r.v < (nV : Int)) &&
            decide (r.vt < (nVT : Int)) && decide (r.vn < (nVN : Int))) &&
        wellFormedFrom nV nVT nVN rest

/-- Well-formedness of a whole stream, starting from empty tables. -/
def wellFormed (lines : List Line) : Bool :=
  wellFormedFrom 0 0 0 lines

theorem emitTri_length (V : List Vec3) (VT : List Vec2) (VN : List Vec3) (a b c : Idx) :
    (emitTri V VT VN a b c).length = 24 := by
  simp [emitTri, pushVert]

theorem emitTriWith_length (V : List Vec3) (VT : List Vec2) (VN : List Vec3)
    (hn hu : Bool) (a b c : Idx) :
    (emitTriWith V VT VN hn hu a b c).length = 24 := by
  simp [emitTriWith, pushVert]

theorem fanLoop_eq (V : List Vec3) (VT : List Vec2) (VN : List Vec3) (a0 : Idx) :
    ∀ tail : List Idx,
      fanLoop V VT VN a0 tail =
        (List.range (tail.length - 1)).flatMap (fun k =>
          emitTri V VT VN a0 (tail.getD k {}) (tail.getD (k + 1) {})) := by
  intro tail
  induction tail with
  | nil => simp [fanLoop]
  | cons b tb ih =>
    cases tb with
    | nil => simp [fanLoop]
    | cons c rest =>
      rw [fanLoop, ih]
      have hlen : (b :: c :: rest).length - 1 = ((c :: rest).length - 1) + 1 := by
        simp
      rw [hlen, List.range_succ_eq_map, List.flatMap_cons, List.flatMap_map]
      simp only [Nat.succ_eq_add_one, List.getD_cons_succ, List.getD_cons_zero]

theorem fanRecords_flatMap (V : List Vec3) (VT : List Vec2) (VN : List Vec3)
    (face : List Idx) :
    fanRecords V VT VN face =
      (List.range' 1 (face.length - 2)).flatMap (fun i =>
        emitTri V VT VN (face.getD 0 {}) (face.getD i {}) (face.getD (i + 1) {})) := by
  cases face with
  | nil => simp [fanRecords]
  | cons a0 tail =>
    rw [fanRecords, fanLoop_eq, List.range'_eq_map_range, List.flatMap_map]
    have hlen : (a0 :: tail).length - 2 = tail.length - 1 := by simp
    rw [hlen]
    have harg : ∀ k : Nat, 1 + k = k + 1 := fun k => Nat.add_comm 1 k
    simp only [harg, List.getD_cons_succ, List.getD_cons_zero]

theorem fanRecords_length (V : List Vec3) (VT : List Vec2) (VN : List Vec3)
    (face : List Idx) :
    (fanRecords V VT VN face).length = 24 * (face.length - 2) := by
  rw [fanRecords_flatMap, List.length_flatMap]
  have h : ∀ i, (List.length ∘ fun i =>
      emitTri V VT VN (face.getD 0 {}) (face.getD i {}) (face.getD (i + 1) {})) i = 24 := by
    intro i
    simp [emitTri_length]
  rw [List.map_congr_left (fun i _ => h i)]
  simp [List.map_const', List.length_range', Nat.mul_comm]

theorem fanLoop_append (V : List Vec3) (VT : List Vec2) (VN : List Vec3) (a0 : Idx) :
    ∀ tail extra : List Idx,
      ∃ rest, fanLoop V VT VN a0 (tail ++ extra) = fanLoop V VT VN a0 tail ++ rest := by
  intro tail
  induction tail with
  | nil =>
    intro extra
    exact ⟨fanLoop V VT VN a0 extra, by simp [fanLoop]⟩
  | cons b tb ih =>
    intro extra
    cases tb with
    | nil => exact ⟨fanLoop V VT VN a0 (b :: extra), by simp [fanLoop]⟩
    | cons c rest =>
      obtain ⟨r, hr⟩ := ih extra
      refine ⟨r, ?_⟩
      simp only [List.cons_append] at hr ⊢
      rw [fanLoop, hr, fanLoop]
      simp

theorem processLines_out (lines : List Line) : ∀ V VT VN out,
    (processLines ⟨V, VT, VN, out⟩ lines).out =
      out ++ (processLines ⟨V, VT, VN, []⟩ lines).out := by
  induction lines with
  | nil =>
    intro V VT VN out
    simp [processLines]
  | cons l rest ih =>
    intro V VT VN out
    cases l with
    | v p => simpa [processLines, stepLine] using ih (V ++ [p]) VT VN out
    | vt t => simpa [processLines, stepLine] using ih V (VT ++ [t]) VN out
    | vn n => simpa [processLines, stepLine] using ih V VT (VN ++ [glmNormalize n]) out
    | skip => simpa [processLines, stepLine] using ih V VT VN out
    | f toks =>
      by_cases h : toks.length < 3
      · simpa [processLines, stepLine, List.length_map, h] using ih V VT VN out
      · have hmap : ¬ (toks.map (parseVertexRef (V.length : Int) (VT.length : Int)
            (VN.length : Int))).length < 3 := by
          simpa [List.length_map] using h
        simp only [processLines, stepLine, hmap, if_false, List.nil_append]
        set F := fanRecords V VT VN (toks.map (parseVertexRef (V.length : Int)
          (VT.length : Int) (VN.length : Int))) with hF
        rw [ih V VT VN (out ++ F), ih V VT VN F]
        simp [List.append_assoc]

theorem hasNormalsB_eq_true_iff (VN : List Vec3) (a b c : Idx) :
    hasNormalsB VN a b c = true ↔ (0 ≤ a.vn ∧ 0 ≤ b.vn ∧ 0 ≤ c.vn) ∧ VN ≠ [] := by
  simp [hasNormalsB, and_assoc]

theorem hasUVB_eq_true_iff (VT : List Vec2) (a b c : Idx) :
    hasUVB VT a b c = true ↔ (0 ≤ a.vt ∧ 0 ≤ b.vt ∧ 0 ≤ c.vt) ∧ VT ≠ [] := by
  simp [hasUVB, and_assoc]

/-- C3: for every emitted sub-triangle, if its three corners do not all
carry a resolved normal index (the source's sentinel convention: resolved
index `≥ 0`), the three records all carry one identical normal equal to
`normalize(cross(pb - pa, pc - pa))` of its resolved corner positions; if
all three corners carry an in-range normal index, the three table normals
are used.  Every sub-triangle the loader emits goes through `emitTri` with
the then-current tables, so this settles the claim for the whole load. -/
theorem C3_normal_synthesis (V : List Vec3) (VT : List Vec2) (VN : List Vec3) (a b c : Idx) :
    (¬(0 ≤ a.vn ∧ 0 ≤ b.vn ∧ 0 ≤ c.vn) →
      recNormal (emitTri V VT VN a b c) 0 =
        synthNormal (vecAt V a.v) (vecAt V b.v) (vecAt V c.v) ∧
      recNormal (emitTri V VT VN a b c) 1 =
        synthNormal (vecAt V a.v) (vecAt V b.v) (vecAt V c.v) ∧
      recNormal (emitTri V VT VN a b c) 2 =
        synthNormal (vecAt V a.v) (vecAt V b.v) (vecAt V c.v)) ∧
    (((0 ≤ a.vn ∧ a.vn.toNat < VN.length) ∧ (0 ≤ b.vn ∧ b.vn.toNat < VN.length) ∧
        (0 ≤ c.vn ∧ c.vn.toNat < VN.length)) →
      recNormal (emitTri V VT VN a b c) 0 = vecAt VN a.vn ∧
      recNormal (emitTri V VT VN a b c) 1 = vecAt VN b.vn ∧
      recNormal (emitTri V VT VN a b c) 2 = vecAt VN c.vn) := by
  constructor
  · intro h
    have hb : hasNormalsB VN a b c = false := by
      rw [Bool.eq_false_iff]
      intro ht
      exact h ((hasNormalsB_eq_true_iff VN a b c).mp ht).1
    refine ⟨?_, ?_, ?_⟩ <;> (simp only [emitTri, hb, Bool.false_eq_true, if_false]; rfl)
  · rintro ⟨⟨ha1, ha2⟩, ⟨hb1, hb2⟩, ⟨hc1, hc2⟩⟩
    have hne : VN ≠ [] := by
      intro h0
      rw [h0] at ha2
      simp at ha2
    have hb : hasNormalsB VN a b c = true :=
      (hasNormalsB_eq_true_iff VN a b c).mpr ⟨⟨ha1, hb1, hc1⟩, hne⟩
    refine ⟨?_, ?_, ?_⟩ <;> (simp only [emitTri, hb, if_true]; rfl)

/-- The position table of the canonical one-triangle example. -/
def Vtri : List Vec3 := [⟨0, 0, 0⟩, ⟨1, 0, 0⟩, ⟨0, 1, 0⟩]

/-- Witness for C3 at a concrete sub-triangle with no normal indices. -/
theorem C3_normal_synthesis_witness :
    recNormal (emitTri Vtri [] [] ⟨0, -1, -1⟩ ⟨1, -1, -1⟩ ⟨2, -1, -1⟩) 0 =
      synthNormal (vecAt Vtri 0) (vecAt Vtri 1) (vecAt Vtri 2) ∧
    recNormal (emitTri Vtri [] [] ⟨0, -1, -1⟩ ⟨1, -1, -1⟩ ⟨2, -1, -1⟩) 1 =
      synthNormal (vecAt Vtri 0) (vecAt Vtri 1) (vecAt Vtri 2) ∧
    recNormal (emitTri Vtri [] [] ⟨0, -1, -1⟩ ⟨1, -1, -1⟩ ⟨2, -1, -1⟩) 2 =
      synthNormal (vecAt Vtri 0) (vecAt Vtri 1) (vecAt Vtri 2) :=
  (C3_normal_synthesis Vtri [] [] ⟨0, -1, -1⟩ ⟨1, -1, -1⟩ ⟨2, -1, -1⟩).1 (by decide)

/-- C5 counterexample input: four vertices, one texcoord, and a quad whose
first three corners reference the texcoord while the fourth does not.  At
the `f` line the tables hold 4 positions, 1 texcoord, 0 normals. -/
def srcC5 : List Line :=
  [.v ⟨0, 0, 0⟩, .v ⟨1, 0, 0⟩, .v ⟨1, 1, 0⟩, .v ⟨0, 1, 0⟩, .vt ⟨5, 7⟩,
   .f ["1/1", "2/1", "3/1", "4"]]

/-- The face of `srcC5` as the loader parses it. -/
def faceC5 : List Idx := ["1/1", "2/1", "3/1", "4"].map (parseVertexRef 4 1 0)

/-- C5 counterexample: the claim says that for a face whose corners do not
all carry a texcoord index, every record emitted for that face has
`u = v = 0`.  In `srcC5` the face's fourth corner carries no texcoord
index, yet the first emitted record carries `u = 5` (texcoord table entry),
because the source decides per sub-triangle, not per face. -/
theorem C5_texcoord_fallback_cex :
    faceAllVT faceC5 = false ∧
    (loadOBJ_to_interleaved "p" (some srcC5) []).out.getD 6 0 ≠ 0 := by
  refine ⟨by decide, ?_⟩
  have h : (loadOBJ_to_interleaved "p" (some srcC5) []).out.getD 6 0 = 5 := by rfl
  rw [h]
  norm_num

/-- C5 amended: the zero-fill/use decision for texture coordinates is made
per sub-triangle (not per face) and also requires the texcoord table to be
nonempty: if a sub-triangle's three corners do not all carry a resolved
texcoord index, or the table is empty, its three records carry `u = v = 0`;
if all three carry an in-range index, the table entries are used
verbatim. -/
theorem C5_texcoord_fallback_amended (V : List Vec3) (VT : List Vec2) (VN : List Vec3)
    (a b c : Idx) :
    (VT = [] ∨ ¬(0 ≤ a.vt ∧ 0 ≤ b.vt ∧ 0 ≤ c.vt) →
      recUV (emitTri V VT VN a b c) 0 = ⟨0, 0⟩ ∧
      recUV (emitTri V VT VN a b c) 1 = ⟨0, 0⟩ ∧
      recUV (emitTri V VT VN a b c) 2 = ⟨0, 0⟩) ∧
    (((0 ≤ a.vt ∧ a.vt.toNat < VT.length) ∧ (0 ≤ b.vt ∧ b.vt.toNat < VT.length) ∧
        (0 ≤ c.vt ∧ c.vt.toNat < VT.length)) →
      recUV (emitTri V VT VN a b c) 0 = uvAt VT a.vt ∧
      recUV (emitTri V VT VN a b c) 1 = uvAt VT b.vt ∧
      recUV (emitTri V VT VN a b c) 2 = uvAt VT c.vt) := by
  constructor
  · intro h
    have hb : hasUVB VT a b c = false := by
      rw [Bool.eq_false_iff]
      intro ht
      have hc := (hasUVB_eq_true_iff VT a b c).mp ht
      rcases h with h | h
      · exact hc.2 h
      · exact h hc.1
    refine ⟨?_, ?_, ?_⟩ <;> (simp only [emitTri, hb, Bool.false_eq_true, if_false]; rfl)
  · rintro ⟨⟨ha1, ha2⟩, ⟨hb1, hb2⟩, ⟨hc1, hc2⟩⟩
    have hne : VT ≠ [] := by
      intro h0
      rw [h0] at ha2
      simp at ha2
    have hb : hasUVB VT a b c = true :=
      (hasUVB_eq_true_iff VT a b c).mpr ⟨⟨ha1, hb1, hc1⟩, hne⟩
    refine ⟨?_, ?_, ?_⟩ <;> (simp only [emitTri, hb, if_true]; rfl)

/-- Witness for C5 (amended) at a concrete sub-triangle without texcoord
indices. -/
theorem C5_texcoord_fallback_amended_witness :
    recUV (emitTri Vtri [] [] ⟨0, -1, -1⟩ ⟨1, -1, -1⟩ ⟨2, -1, -1⟩) 0 = ⟨0, 0⟩ ∧
    recUV (emitTri Vtri [] [] ⟨0, -1, -1⟩ ⟨1, -1, -1⟩ ⟨2, -1, -1⟩) 1 = ⟨0, 0⟩ ∧
    recUV (emitTri Vtri [] [] ⟨0, -1, -1⟩ ⟨1, -1, -1⟩ ⟨2, -1, -1⟩) 2 = ⟨0, 0⟩ :=
  (C5_texcoord_fallback_amended Vtri [] [] ⟨0, -1, -1⟩ ⟨1, -1, -1⟩ ⟨2, -1, -1⟩).1
    (Or.inl rfl)

/-- Position table of the C4 counterexample quad. -/
def Vquad : List Vec3 := [⟨0, 0, 0⟩, ⟨1, 0, 0⟩, ⟨1, 1, 0⟩, ⟨0, 1, 0⟩]

/-- One-entry texcoord table of the C4 counterexample. -/
def VTone : List Vec2 := [⟨9, 2⟩]

/-- The C4 counterexample face: three corners reference texcoord 1, the
fourth corner references none. -/
def faceC4 : List Idx := ["1/1", "2/1", "3/1", "4"].map (parseVertexRef 4 1 0)

/-- C4 counterexample: the emitted records differ from what a per-face
all-or-nothing decision (`fanRecordsPerFace`, modelled from the claim's
wording) would produce: on `faceC4` the per-face decision would zero-fill
every record's texcoords (the fourth corner carries none), but the source
emits `u = 9` for the first record, deciding per sub-triangle. -/
theorem C4_per_face_decision_cex :
    fanRecords Vquad VTone [] faceC4 ≠ fanRecordsPerFace Vquad VTone [] faceC4 := by
  intro h
  have h1 : (fanRecords Vquad VTone [] faceC4).getD 6 0 = 9 := by rfl
  have h2 : (fanRecordsPerFace Vquad VTone [] faceC4).getD 6 0 = 0 := by rfl
  rw [h, h2] at h1
  norm_num at h1

/-- C4 amended: the attribute decisions are per sub-triangle, from that
sub-triangle's own three corners: the fan output is the concatenation of
the per-sub-triangle `emitTri` outputs, and the records of the earlier
sub-triangles are unchanged by appending further corners to the face. -/
theorem C4_per_subtriangle_decision_amended (V : List Vec3) (VT : List Vec2)
    (VN : List Vec3) (face extra : List Idx) :
    fanRecords V VT VN face =
      (List.range' 1 (face.length - 2)).flatMap (fun i =>
        emitTri V VT VN (face.getD 0 {}) (face.getD i {}) (face.getD (i + 1) {})) ∧
    ∃ rest, fanRecords V VT VN (face ++ extra) = fanRecords V VT VN face ++ rest := by
  refine ⟨fanRecords_flatMap V VT VN face, ?_⟩
  cases face with
  | nil => exact ⟨fanRecords V VT VN extra, by simp [fanRecords]⟩
  | cons a0 tail =>
    obtain ⟨rest, hrest⟩ := fanLoop_append V VT VN a0 tail extra
    exact ⟨rest, by simpa [fanRecords] using hrest⟩

/-- C1 counterexample input: three vertices and a face whose third corner
references position index 4 — `fixIndex 4 3 = 3`, outside `[0, 3)`. -/
def srcC1 : List Line := [.v ⟨0, 0, 0⟩, .v ⟨1, 0, 0⟩, .v ⟨0, 1, 0⟩, .f ["1", "2", "4"]]

/-- C1 counterexample: the claim says a mandatory position index resolving
outside `[0, L)` fails with `MalformedFace`, aborting the load.  On
`srcC1`, reference `4` against the 3-entry table resolves to position `3`,
out of range, yet the load succeeds (`ok = true`) with no diagnostic: the
source performs no bounds check (the out-of-range `V[3]` read is undefined
behaviour in the C++, modelled as a default read). -/
theorem C1_out_of_range_load_succeeds_cex :
    (parseVertexRef 3 0 0 "4").v = 3 ∧
    (loadOBJ_to_interleaved "planet.obj" (some srcC1) []).ok = true ∧
    (loadOBJ_to_interleaved "planet.obj" (some srcC1) []).log = [] :=
  ⟨by decide, by rfl, by rfl⟩

/-- C1 amended: `fixIndex` resolves a positive reference `i` to `i - 1`, a
negative reference `i` against a table of length `L` to `L + i`, and
reference `0` to the no-value sentinel `-1`; but the loader performs no
bounds check and has no `MalformedFace` failure: a load from an unopenable
source fails, and a load from an opened stream fails exactly when the final
output vector is empty — there is no other failure mode. -/
theorem C1_index_resolution_amended :
    (∀ i n : Int, 0 < i → fixIndex i n = i - 1) ∧
    (∀ i n : Int, i < 0 → fixIndex i n = n + i) ∧
    (∀ n : Int, fixIndex 0 n = -1) ∧
    (∀ (path : String) (out0 : List ℝ),
      (loadOBJ_to_interleaved path none out0).ok = false) ∧
    (∀ (path : String) (lines : List Line) (out0 : List ℝ),
      (loadOBJ_to_interleaved path (some lines) out0).ok = false ↔
        (loadOBJ_to_interleaved path (some lines) out0).out = []) := by
  refine ⟨?_, ?_, ?_, ?_, ?_⟩
  · intro i n h
    simp [fixIndex, h]
  · intro i n h
    rw [fixIndex, if_neg (by omega), if_pos h]
  · intro n
    simp [fixIndex]
  · intro path out0
    rfl
  · intro path lines out0
    simp only [loadOBJ_to_interleaved]
    by_cases h : (processLines ⟨[], [], [], out0⟩ lines).out.isEmpty
    · simp [h, List.isEmpty_iff.mp h]
    · simp [h, List.isEmpty_eq_false.mp (Bool.eq_false_iff.mpr h)]

/-- Witness for C1 (amended) at concrete indices and a concrete missing
source. -/
theorem C1_index_resolution_amended_witness :
    fixIndex 5 5 = 4 ∧ fixIndex (-1) 5 = 4 ∧ fixIndex 0 5 = -1 ∧
    (loadOBJ_to_interleaved "missing.obj" none []).ok = false :=
  ⟨C1_index_resolution_amended.1 5 5 (by decide),
   C1_index_resolution_amended.2.1 (-1) 5 (by decide),
   C1_index_resolution_amended.2.2.1 5,
   C1_index_resolution_amended.2.2.2.1 "missing.obj" []⟩

/-- C2: processing an `f` line with `n ≥ 3` corner tokens appends exactly
the fan records for the parsed face; those records are exactly the
concatenation, for `i` in `[1, n-2]` in that order, of the sub-triangle
`(face[0], face[i], face[i+1])` emissions; their float count is
`24 * (n - 2)`, i.e. `3 * (n - 2)` interleaved 8-float records. -/
theorem C2_fan_triangulation (st : PState) (toks : List String) (h : 3 ≤ toks.length) :
    stepLine st (.f toks) =
      { st with out := (st.out ++ fanRecords st.V st.VT st.VN
          (toks.map (parseVertexRef (st.V.length : Int) (st.VT.length : Int)
            (st.VN.length : Int)))) } ∧
    fanRecords st.V st.VT st.VN
        (toks.map (parseVertexRef (st.V.length : Int) (st.VT.length : Int)
          (st.VN.length : Int))) =
      (List.range' 1 (toks.length - 2)).flatMap (fun i =>
        emitTri st.V st.VT st.VN
          ((toks.map (parseVertexRef (st.V.length : Int) (st.VT.length : Int)
            (st.VN.length : Int))).getD 0 {})
          ((toks.map (parseVertexRef (st.V.length : Int) (st.VT.length : Int)
            (st.VN.length : Int))).getD i {})
          ((toks.map (parseVertexRef (st.V.length : Int) (st.VT.length : Int)
            (st.VN.length : Int))).getD (i + 1) {})) ∧
    (fanRecords st.V st.VT st.VN
        (toks.map (parseVertexRef (st.V.length : Int) (st.VT.length : Int)
          (st.VN.length : Int)))).length = 24 * (toks.length - 2) := by
  refine ⟨?_, ?_, ?_⟩
  · simp only [stepLine, List.length_map]
    rw [if_neg (by omega)]
  · rw [fanRecords_flatMap]
    simp [List.length_map]
  · rw [fanRecords_length]
    simp [List.length_map]

/-- Witness for C2 on a concrete quad face. -/
theorem C2_fan_triangulation_witness :
    (fanRecords Vquad [] []
        (["1", "2", "3", "4"].map (parseVertexRef (Vquad.length : Int)
          (([] : List Vec2).length : Int) (([] : List Vec3).length : Int)))).length =
      24 * (["1", "2", "3", "4"].length - 2) :=
  (C2_fan_triangulation ⟨Vquad, [], [], []⟩ ["1", "2", "3", "4"] (by decide)).2.2

/-- C6 counterexample input: a two-token `f` line followed by a valid
triangle. -/
def srcC6 : List Line :=
  [.v ⟨0, 0, 0⟩, .v ⟨1, 0, 0⟩, .v ⟨0, 1, 0⟩, .f ["1", "2"], .f ["1", "2", "3"]]

/-- C6 counterexample: the claim says a short `f` line is skipped *with a
warning*.  On `srcC6` the two-token face is skipped (only the following
triangle's 24 floats are emitted) and the load continues and succeeds, but
the diagnostic log is empty: the source prints nothing for a short face
(`if (face.size() < 3) continue;`). -/
theorem C6_short_face_warning_cex :
    (loadOBJ_to_interleaved "p" (some srcC6) []).ok = true ∧
    (loadOBJ_to_interleaved "p" (some srcC6) []).log = [] ∧
    (loadOBJ_to_interleaved "p" (some srcC6) []).out.length = 24 :=
  ⟨by rfl, by rfl, by rfl⟩

/-- C6 amended: an `f` line with fewer than 3 vertex-reference tokens is
skipped silently — the state (tables and output) is unchanged, so no
records are emitted and processing continues with the rest of the stream —
and no warning exists: the only diagnostics a load from an opened stream
can produce is the terminal empty-output message. -/
theorem C6_short_face_skipped_amended :
    (∀ (st : PState) (toks : List String), toks.length < 3 → stepLine st (.f toks) = st) ∧
    (∀ (path : String) (lines : List Line) (out0 : List ℝ),
      (loadOBJ_to_interleaved path (some lines) out0).log = [] ∨
      (loadOBJ_to_interleaved path (some lines) out0).log = [msgNoVertices path]) := by
  constructor
  · intro st toks h
    simp [stepLine, List.length_map, h]
  · intro path lines out0
    simp only [loadOBJ_to_interleaved]
    by_cases h : (processLines ⟨[], [], [], out0⟩ lines).out.isEmpty
    · simp [h]
    · simp [h]

/-- Witness for C6 (amended): a concrete short face leaves a concrete
state unchanged. -/
theorem C6_short_face_skipped_amended_witness :
    stepLine ⟨Vtri, [], [], []⟩ (.f ["1", "2"]) = ⟨Vtri, [], [], []⟩ :=
  C6_short_face_skipped_amended.1 ⟨Vtri, [], [], []⟩ ["1", "2"] (by decide)

/-- The two diagnostics differ for every path (their lengths differ). -/
theorem msgCannotOpen_ne_msgNoVertices (path : String) :
    msgCannotOpen path ≠ msgNoVertices path := by
  intro h
  have hlen := congrArg String.length h
  rw [msgCannotOpen, msgNoVertices, String.length_append, String.length_append] at hlen
  have h1 : "Cannot open OBJ: ".length = 17 := by rfl
  have h2 : "OBJ produced no vertices: ".length = 26 := by rfl
  rw [h1, h2] at hlen
  omega

/-- C7 counterexample: the claim says an *empty* source also fails with
`SourceUnavailable`.  An empty stream opens fine; the load then fails on
the empty-output path, printing the no-vertices (`EmptyMesh`) diagnostic,
not the cannot-open (`SourceUnavailable`) one. -/
theorem C7_empty_source_cex :
    loadOBJ_to_interleaved "p" (some []) [] =
      { ok := false, out := [], log := [msgNoVertices "p"] } ∧
    msgNoVertices "p" ≠ msgCannotOpen "p" :=
  ⟨by rfl, by decide⟩

/-- C7 amended: the load fails with the cannot-open (`SourceUnavailable`)
diagnostic exactly when the stream could not be opened, and in that case
nothing is appended to the output vector; a load from any opened stream —
even an empty one — never produces that diagnostic. -/
theorem C7_source_unavailable_amended :
    (∀ (path : String) (out0 : List ℝ),
      loadOBJ_to_interleaved path none out0 =
        { ok := false, out := out0, log := [msgCannotOpen path] }) ∧
    (∀ (path : String) (lines : List Line) (out0 : List ℝ),
      msgCannotOpen path ∉ (loadOBJ_to_interleaved path (some lines) out0).log) := by
  constructor
  · intro path out0
    rfl
  · intro path lines out0
    simp only [loadOBJ_to_interleaved]
    by_cases h : (processLines ⟨[], [], [], out0⟩ lines).out.isEmpty
    · simp only [h, if_true, List.mem_singleton]
      exact msgCannotOpen_ne_msgNoVertices path
    · simp [h]

/-- Witness for C7 (amended) on a concrete unopenable path and a concrete
opened stream. -/
theorem C7_source_unavailable_amended_witness :
    loadOBJ_to_interleaved "gone.obj" none [(2 : ℝ)] =
      { ok := false, out := [(2 : ℝ)], log := [msgCannotOpen "gone.obj"] } ∧
    msgCannotOpen "gone.obj" ∉ (loadOBJ_to_interleaved "gone.obj" (some []) []).log :=
  ⟨C7_source_unavailable_amended.1 "gone.obj" [(2 : ℝ)],
   C7_source_unavailable_amended.2 "gone.obj" [] []⟩

/-- C8: a load into a fresh output vector from a stream that contributes
zero records fails with the empty-output (`EmptyMesh`) diagnostic and
returns no records. -/
theorem C8_empty_mesh (path : String) (lines : List Line) (h : recordsOf lines = []) :
    loadOBJ_to_interleaved path (some lines) [] =
      { ok := false, out := [], log := [msgNoVertices path] } := by
  rw [recordsOf] at h
  simp [loadOBJ_to_interleaved, h]

/-- Witness for C8 on a comment-only file (two ignored lines). -/
theorem C8_empty_mesh_witness :
    recordsOf [Line.skip, Line.skip] = [] ∧
    loadOBJ_to_interleaved "empty.obj" (some [Line.skip, Line.skip]) [] =
      { ok := false, out := [], log := [msgNoVertices "empty.obj"] } :=
  ⟨rfl, C8_empty_mesh "empty.obj" [Line.skip, Line.skip] rfl⟩

/-- C9: the loader never clears the caller-supplied output vector: the
final vector is the initial contents followed by the records the stream
contributes, and the failure decision tests the whole vector — so a call on
a non-empty vector succeeds even when the stream contributes nothing. -/
theorem C9_append_semantics (path : String) (lines : List Line) (out0 : List ℝ) :
    (loadOBJ_to_interleaved path (some lines) out0).out = out0 ++ recordsOf lines ∧
    ((loadOBJ_to_interleaved path (some lines) out0).ok = false ↔
      out0 ++ recordsOf lines = []) := by
  have hout : (processLines ⟨[], [], [], out0⟩ lines).out = out0 ++ recordsOf lines := by
    rw [recordsOf]
    exact processLines_out lines [] [] [] out0
  constructor
  · simp only [loadOBJ_to_interleaved]
    by_cases h : (processLines ⟨[], [], [], out0⟩ lines).out.isEmpty
    · simp [h, hout.symm]
    · simp [h, hout.symm]
  · simp only [loadOBJ_to_interleaved]
    by_cases h : (processLines ⟨[], [], [], out0⟩ lines).out.isEmpty
    · have h0 := List.isEmpty_iff.mp h
      rw [hout] at h0
      simp [h, h0]
    · have h0 := List.isEmpty_eq_false.mp (Bool.eq_false_iff.mpr h)
      rw [hout] at h0
      simp [h, h0]

/-- Witness for C9: an empty stream loaded into a non-empty vector keeps
the vector and succeeds. -/
theorem C9_append_semantics_witness :
    (loadOBJ_to_interleaved "p" (some []) [(1 : ℝ)]).out = [(1 : ℝ)] ++ recordsOf [] ∧
    ((loadOBJ_to_interleaved "p" (some []) [(1 : ℝ)]).ok = false ↔
      [(1 : ℝ)] ++ recordsOf [] = []) :=
  C9_append_semantics "p" [] [(1 : ℝ)]

/-- C10: loading the same well-formed source twice, each time into its own
fresh output buffer, yields identical results.  In this embedding the
loader is a pure function of the stream, so determinism is immediate; the
well-formedness hypothesis marks the boundary inside which the C++ is also
deterministic (no out-of-range table read, hence no undefined behaviour
feeding the output). -/
theorem C10_determinism (path : String) (lines : List Line) (out1 out2 : List ℝ)
    (hwf : wellFormed lines = true) (h1 : out1 = []) (h2 : out2 = []) :
    loadOBJ_to_interleaved path (some lines) out1 =
      loadOBJ_to_interleaved path (some lines) out2 := by
  subst h1
  subst h2
  rfl

/-- Well-formed concrete source for the C10 witness. -/
def srcC10 : List Line := [.v ⟨0, 0, 0⟩, .v ⟨1, 0, 0⟩, .v ⟨0, 1, 0⟩, .f ["1", "2", "3"]]

/-- Witness for C10 on a concrete well-formed source. -/
theorem C10_determinism_witness :
    wellFormed srcC10 = true ∧
    loadOBJ_to_interleaved "planet.obj" (some srcC10) [] =
      loadOBJ_to_interleaved "planet.obj" (some srcC10) [] :=
  ⟨by rfl, C10_determinism "planet.obj" srcC10 [] [] (by rfl) rfl rfl⟩
